import Mathlib

/-!
Verification of the PeerCafe Order Lifecycle & Dispatch Engine.

This file gives a shallow embedding of the backend routes that the
specification describes (order state machine, delivery-code verification,
financial sanitizer, customer location resolution, batch distance chunking)
and proves or refutes the specification claims against it.

Monetary values are embedded as rationals; Python `round(x, 2)` becomes
rounding of `100 * x` to an integer.  Loosely typed row fields (which in the
Python code may hold `None`, numbers, strings or booleans) are embedded as
the inductive type `PyVal`; Python truthiness and `float(...)` coercion are
modelled explicitly.  Timestamps are abstract naturals supplied by the
caller (the embedding of `datetime.now()`), and the random 6-digit delivery
code is a natural-number parameter of the transition function.
-/

namespace PeerCafe

/-- Rounding to two decimal places, the embedding of Python `round(x, 2)`
on the exact rationals used here. -/
def round2 (q : ℚ) : ℚ := ((round (q * 100) : ℤ) : ℚ) / 100

/-- A loosely typed value as it may appear in a stored row field:
`none` embeds Python `None` (and an absent key where the code treats the
two alike), `num` a stored number, `str` a stored string, `bool` a stored
boolean. -/
inductive PyVal where
  | none : PyVal
  | num : ℚ → PyVal
  | str : String → PyVal
  | bool : Bool → PyVal
deriving DecidableEq, Repr

/-- Parse the digits of a character list as a natural number; fails on a
non-digit or on the empty list. -/
def parseDigits (cs : List Char) : Option ℕ :=
  match cs with
  | [] => Option.none
  | _ => cs.foldlM (fun acc c => if c.isDigit then some (10 * acc + (c.toNat - 48)) else Option.none) 0

/-- Parse an unsigned decimal numeral, with an optional single decimal
point (as accepted by Python `float`); exponent and special forms are not
needed by any claim and are out of the modelled domain. -/
def parseUnsignedDec (cs : List Char) : Option ℚ :=
  match cs.splitOn '.' with
  | [i] => (parseDigits i).map (fun n => (n : ℚ))
  | [i, f] =>
    if i = [] ∧ f = [] then Option.none
    else do
      let ni ← if i = [] then some 0 else parseDigits i
      let nf ← if f = [] then some 0 else parseDigits f
      some ((ni : ℚ) + (nf : ℚ) / (10 ^ f.length))
  | _ => Option.none

/-- Embedding of Python `str.strip()`: drop whitespace characters from
both ends of the string. -/
def pyStrip (s : String) : String :=
  String.mk (((s.toList.dropWhile Char.isWhitespace).reverse.dropWhile Char.isWhitespace).reverse)

/-- Parse a decimal string the way Python `float(s)` does on the inputs in
scope: surrounding whitespace stripped, optional sign, digits with an
optional decimal point. -/
def parseDecimal (s : String) : Option ℚ :=
  match (pyStrip s).toList with
  | [] => Option.none
  | '-' :: rest => (parseUnsignedDec rest).map Neg.neg
  | '+' :: rest => parseUnsignedDec rest
  | cs => parseUnsignedDec cs

/-- Embedding of `_safe_float(val, default)` from `order_routes.py`:
`float(val) if val is not None else default`, with any exception giving
`default`. -/
def safe_float (v : PyVal) (default : Option ℚ) : Option ℚ :=
  match v with
  | .none => default
  | .num q => some q
  | .bool b => some (if b then 1 else 0)
  | .str s =>
    match parseDecimal s with
    | some q => some q
    | Option.none => default

/-- Python truthiness of a `PyVal` (`None`, `0`, an empty string and
`False` are falsy). -/
def pyTruthy : PyVal → Bool
  | .none => false
  | .num q => q != 0
  | .str s => s != ""
  | .bool b => b

/-- Python `x or d` on an optional number: the parsed value when it is
truthy (non-`None` and non-zero), otherwise `d`. -/
def pyOr (x : Option ℚ) (d : ℚ) : ℚ :=
  match x with
  | some q => if q = 0 then d else q
  | Option.none => d

/-- A value that Python may add to a float without raising: numbers and
booleans; `None` and strings raise `TypeError`. -/
def pyAddable : PyVal → Option ℚ
  | .num q => some q
  | .bool b => some (if b then 1 else 0)
  | _ => Option.none

/-! ## Order status and the state machine (`order_routes.py`) -/

/-- The `OrderStatus` enum of `models/order_model.py`. -/
inductive OrderStatus where
  | pending | confirmed | preparing | ready | assigned
  | picked_up | en_route | delivered | cancelled
deriving DecidableEq, Repr

/-- String value of a status, as persisted (`OrderStatus.<X>.value`). -/
def statusStr : OrderStatus → String
  | .pending => "pending"
  | .confirmed => "confirmed"
  | .preparing => "preparing"
  | .ready => "ready"
  | .assigned => "assigned"
  | .picked_up => "picked_up"
  | .en_route => "en_route"
  | .delivered => "delivered"
  | .cancelled => "cancelled"

/-- A stored delivery code: the database may hold it as text or as a
number; `verify_delivery_code` compares both sides through `str(...)`. -/
inductive CodeVal where
  | str : String → CodeVal
  | int : ℕ → CodeVal
deriving DecidableEq, Repr

/-- Python `str(...)` of a stored code. -/
def CodeVal.toStr : CodeVal → String
  | .str s => s
  | .int n => toString n

/-- Truthiness of an optional stored code (`if not code`): absent, the
empty string and the number 0 are falsy. -/
def codeTruthy : Option CodeVal → Bool
  | Option.none => false
  | some (.str s) => s != ""
  | some (.int n) => n != 0

/-- The projection of a stored order row onto the fields the state-machine
endpoints read or write. -/
structure OrderRow where
  status : OrderStatus
  delivery_code : Option CodeVal
  delivery_code_used : Bool
  actual_pickup_time : Option ℕ
  actual_delivery_time : Option ℕ
  delivery_user_id : Option String
  updated_at : ℕ
deriving DecidableEq, Repr

/-- The orders table, keyed by order id. -/
def Store := List (String × OrderRow)

instance : DecidableEq Store := by
  unfold Store
  infer_instance

/-- Row lookup by order id (the `select().eq("order_id", id)` fetch). -/
def Store.fetch (db : Store) (id : String) : Option OrderRow :=
  List.lookup id db

/-- Row replacement by order id (the `update().eq("order_id", id)` write). -/
def Store.put (db : Store) (id : String) (r : OrderRow) : Store :=
  db.map (fun p => if p.1 = id then (id, r) else p)

/-- An HTTP-style error: status code and detail message. -/
structure HErr where
  code : ℕ
  detail : String
deriving DecidableEq, Repr

/-- Embedding of `update_order_status` (PATCH `/orders/{id}/status`).
`now` stands for `datetime.now()` and `freshCode` for
`random.randint(100000, 999999)`.  The only transition guards in the
source are the two shown: a `picked_up` target requires the current
status to be `assigned`, `ready` or `confirmed`, and a `delivered` target
requires `picked_up` or `en_route`; every other target is written
unconditionally.  On a `picked_up` target the actual pickup time is
stamped and, when no truthy delivery code is already stored, a fresh
6-digit code is stored with the used-flag cleared. -/
def update_order_status (db : Store) (order_id : String) (new_status : OrderStatus)
    (now : ℕ) (freshCode : ℕ) : Except HErr Store :=
  match Store.fetch db order_id with
  | Option.none => .error ⟨404, "Order not found"⟩
  | some row =>
    if new_status = OrderStatus.picked_up ∧
        ¬ (row.status = OrderStatus.assigned ∨ row.status = OrderStatus.ready ∨
           row.status = OrderStatus.confirmed) then
      .error ⟨400, "Invalid transition: cannot mark as picked_up from " ++ statusStr row.status⟩
    else if new_status = OrderStatus.delivered ∧
        ¬ (row.status = OrderStatus.picked_up ∨ row.status = OrderStatus.en_route) then
      .error ⟨400, "Invalid transition: cannot mark as delivered from " ++ statusStr row.status⟩
    else
      let base : OrderRow := { row with status := new_status, updated_at := now }
      let row2 : OrderRow :=
        if new_status = OrderStatus.picked_up then
          let withTime : OrderRow := { base with actual_pickup_time := some now }
          if codeTruthy row.delivery_code then withTime
          else { withTime with
                   delivery_code := some (CodeVal.str (toString freshCode)),
                   delivery_code_used := false }
        else if new_status = OrderStatus.delivered then
          { base with actual_delivery_time := some now }
        else base
      .ok (Store.put db order_id row2)

/-- Embedding of `cancel_order` (DELETE `/orders/{id}`): reject when the
order is already `delivered` or `cancelled`, otherwise write status
`cancelled`. -/
def cancel_order (db : Store) (order_id : String) (now : ℕ) : Except HErr Store :=
  match Store.fetch db order_id with
  | Option.none => .error ⟨404, "Order not found"⟩
  | some row =>
    if row.status = OrderStatus.delivered ∨ row.status = OrderStatus.cancelled then
      .error ⟨400, "Cannot cancel order that is already delivered or cancelled"⟩
    else
      .ok (Store.put db order_id { row with status := OrderStatus.cancelled, updated_at := now })

/-- Embedding of `verify_delivery_code` (POST `/orders/{id}/verify-delivery`).
The checks run in source order: falsy submitted code, missing order, falsy
stored code, text comparison of the stripped `str(...)` images, then the
status guard; on success the row is written with status `delivered`, the
used-flag set, and the actual delivery time stamped.  The function never
reads `delivery_code_used`. -/
def verify_delivery_code (db : Store) (order_id : String) (payload_code : Option CodeVal)
    (now : ℕ) : Except HErr Store :=
  if !codeTruthy payload_code then
    .error ⟨400, "Missing delivery_code in request body"⟩
  else
    match Store.fetch db order_id with
    | Option.none => .error ⟨404, "Order not found"⟩
    | some row =>
      if !codeTruthy row.delivery_code then
        .error ⟨400, "No delivery code set for this order"⟩
      else if (pyStrip (payload_code.getD (CodeVal.int 0)).toStr ≠
               pyStrip (row.delivery_code.getD (CodeVal.int 0)).toStr) then
        .error ⟨400, "Invalid delivery code"⟩
      else if ¬ (row.status = OrderStatus.picked_up ∨ row.status = OrderStatus.en_route) then
        .error ⟨400, "Invalid transition: cannot mark as delivered from " ++ statusStr row.status⟩
      else
        .ok (Store.put db order_id
          { row with
              status := OrderStatus.delivered,
              delivery_code_used := true,
              actual_delivery_time := some now,
              updated_at := now })

/-! ## Financial sanitizer (`order_routes.py`) -/

/-- A raw order item as it may come out of storage: either a dict of
loosely typed fields or some other object (whose only relevant property is
its truthiness; non-dicts have no usable `get` method, so their price and
quantity fall back to the defaults 0 and 1). -/
inductive ItemVal where
  | dict : List (String × PyVal) → ItemVal
  | obj : Bool → ItemVal
deriving DecidableEq, Repr

/-- Python truthiness of a raw item (an empty dict is falsy). -/
def ItemVal.truthy : ItemVal → Bool
  | .dict es => !es.isEmpty
  | .obj t => t

/-- Embedding of `_compute_item_subtotal`: a falsy item contributes 0; a
dict holding a `subtotal` key contributes `_safe_float(subtotal, 0) or 0`;
otherwise the contribution is `price × quantity` with
`price = _safe_float(get("price", 0), 0) or 0` and
`quantity = _safe_float(get("quantity", 1), 1) or 1`; a truthy non-dict
falls back to the `get` defaults and contributes `0 × 1`. -/
def compute_item_subtotal (it : ItemVal) : ℚ :=
  if !it.truthy then 0
  else
    match it with
    | .dict es =>
      if (List.lookup "subtotal" es).isSome then
        pyOr (safe_float ((List.lookup "subtotal" es).getD PyVal.none) (some 0)) 0
      else
        let price := pyOr (safe_float ((List.lookup "price" es).getD (PyVal.num 0)) (some 0)) 0
        let qty := pyOr (safe_float ((List.lookup "quantity" es).getD (PyVal.num 1)) (some 1)) 1
        price * qty
    | .obj _ => 0 * 1

/-- Embedding of `_compute_subtotal`: contributions are summed; every item
yields a value, so the per-item exception guard of the source never skips
anything in the modelled domain and the loop is a plain sum. -/
def compute_subtotal (items : List ItemVal) : ℚ :=
  (items.map compute_item_subtotal).sum

/-- The projection of a stored order row onto the fields the financial
sanitizer and the financial read-path normalization touch.  `order_items`
embeds `o.get("order_items") or []` (an absent or falsy field and the
empty list behave identically downstream). -/
structure OrderRec where
  order_items : List ItemVal
  subtotal : PyVal
  tax_amount : PyVal
  delivery_fee : PyVal
  tip_amount : PyVal
  discount_amount : PyVal
  total_amount : PyVal
deriving DecidableEq, Repr

/-- Embedding of `_compute_and_update_subtotal`: recompute the subtotal
from the items and overwrite the stored field (rounded to 2 decimals)
when the stored value is absent/non-numeric or differs by more than 0.01;
returns the (possibly updated) record and the changed flag. -/
def compute_and_update_subtotal (o : OrderRec) : OrderRec × Bool :=
  let computed := compute_subtotal o.order_items
  match safe_float o.subtotal Option.none with
  | Option.none => ({ o with subtotal := PyVal.num (round2 computed) }, true)
  | some s =>
    if |s - computed| > 1 / 100 then
      ({ o with subtotal := PyVal.num (round2 computed) }, true)
    else (o, false)

/-- Embedding of `_recompute_total`: fee components coerce to 0 when
absent or non-numeric, but the (possibly just rewritten) subtotal field is
added raw — a stored string or `None` there raises `TypeError`, embedded
as the `Option.none` result (the exception that `_compute_and_update_total`
swallows).  Otherwise the recomputed total is compared with the stored one
under the 0.01 tolerance; `some (some t)` means the total changes to `t`,
`some Option.none` means it is within tolerance. -/
def recompute_total (o : OrderRec) : Option (Option ℚ) :=
  let tax := pyOr (safe_float o.tax_amount (some 0)) 0
  let delivery_fee := pyOr (safe_float o.delivery_fee (some 0)) 0
  let tip := pyOr (safe_float o.tip_amount (some 0)) 0
  let discount := pyOr (safe_float o.discount_amount (some 0)) 0
  match pyAddable o.subtotal with
  | Option.none => Option.none
  | some s =>
    let computed := round2 (s + tax + delivery_fee + tip - discount)
    match safe_float o.total_amount Option.none with
    | Option.none => some (some computed)
    | some st => if |st - computed| > 1 / 100 then some (some computed) else some Option.none

/-- Embedding of `_compute_and_update_total`: apply `_recompute_total`,
writing the new total on change; any exception leaves the record
unchanged with a `false` flag. -/
def compute_and_update_total (o : OrderRec) : OrderRec × Bool :=
  match recompute_total o with
  | some (some t) => ({ o with total_amount := PyVal.num t }, true)
  | _ => (o, false)

/-- The process-wide sanitization tally (`_sanitization_counts`). -/
structure SanCounters where
  records_sanitized : ℕ
  subtotal_corrections : ℕ
  total_corrections : ℕ
deriving DecidableEq, Repr

/-- Embedding of `_sanitize_order_record`: run the subtotal step, then the
total step, and bump the counters when either changed; the state of the
counters is threaded explicitly in place of the guarded module global. -/
def sanitize_order_record (o : OrderRec) (c : SanCounters) : OrderRec × SanCounters :=
  let s1 := compute_and_update_subtotal o
  let s2 := compute_and_update_total s1.1
  if s1.2 || s2.2 then
    (s2.1,
     { records_sanitized := c.records_sanitized + 1,
       subtotal_corrections := c.subtotal_corrections + (if s1.2 then 1 else 0),
       total_corrections := c.total_corrections + (if s2.2 then 1 else 0) })
  else (s2.1, c)

/-! ## Read paths serving stored rows (`order_routes.py`) -/

/-- Embedding of the body of `list_orders` (GET `/orders/`, admin listing)
after the table query: the route returns `response.data or []` — the rows
exactly as stored, with no sanitization and no counter updates. -/
def list_orders (responseData : Option (List OrderRec)) : List OrderRec :=
  responseData.getD []

/-- Embedding of `float(it.get("subtotal", 0) or 0)` from the inline
normalization of `get_order_by_id`: a falsy field coerces to 0, otherwise
the value is parsed, any failure giving 0. -/
def coerce_item_subtotal (v : PyVal) : ℚ :=
  if pyTruthy v then (safe_float v Option.none).getD 0 else 0

/-- Write a field of a raw item dict, replacing an existing binding. -/
def setField (es : List (String × PyVal)) (k : String) (v : PyVal) : List (String × PyVal) :=
  if (List.lookup k es).isSome then
    es.map (fun p => if p.1 = k then (k, v) else p)
  else es ++ [(k, v)]

/-- Per-item normalization of `get_order_by_id`: a non-dict item collapses
to an empty dict, then the `subtotal` field is overwritten with its
coerced numeric value. -/
def normalize_item (it : ItemVal) : ItemVal :=
  match it with
  | .dict es =>
    .dict (setField es "subtotal"
      (PyVal.num (coerce_item_subtotal ((List.lookup "subtotal" es).getD (PyVal.num 0)))))
  | .obj _ => .dict [("subtotal", PyVal.num 0)]

/-- Sum of the (post-normalization, always numeric) `subtotal` fields of a
list of items: `sum(i.get("subtotal", 0.0) for i in normalized_items)`. -/
def itemsSubtotalSum (items : List ItemVal) : ℚ :=
  (items.map (fun it =>
    match it with
    | .dict es => (((List.lookup "subtotal" es).getD (PyVal.num 0)) |> pyAddable).getD 0
    | .obj _ => 0)).sum

/-- Embedding of the financial part of the `get_order_by_id` response
normalization: items are normalized one by one, the stored subtotal is
unconditionally replaced by the rounded sum of the coerced item subtotals
(no tolerance, no counters), and the stored total is left untouched.
The address-completion step of the route touches no financial field and
is omitted from this record. -/
def get_order_financials (o : OrderRec) : OrderRec :=
  let items := o.order_items.map normalize_item
  { o with
      order_items := items,
      subtotal := PyVal.num (round2 (itemsSubtotalSum items)) }

/-! ## Order creation (`models/order_model.py`, `place_order`) -/

/-- The typed `OrderItem` creation model. -/
structure OrderItemC where
  item_id : ℤ
  item_name : String
  price : ℚ
  quantity : ℕ
  subtotal : ℚ
  special_instructions : Option String
deriving DecidableEq, Repr

/-- Pydantic field and validator checks of `OrderItem`: positive price,
quantity and subtotal, length bounds, and the line-subtotal validator
`|subtotal - round(price * quantity, 2)| ≤ 0.01`. -/
def OrderItemC.pydanticOk (it : OrderItemC) : Bool :=
  decide (0 < it.price) && decide (0 < it.quantity) && decide (0 < it.subtotal) &&
  decide (1 ≤ it.item_name.length) && decide (it.item_name.length ≤ 100) &&
  decide (((it.special_instructions.map String.length).getD 0) ≤ 500) &&
  decide (|it.subtotal - round2 (it.price * (it.quantity : ℚ))| ≤ 1 / 100)

/-- The typed `DeliveryAddress` creation model. -/
structure DeliveryAddressC where
  street : String
  city : String
  state : String
  zip_code : String
  instructions : Option String
deriving DecidableEq, Repr

/-- Pydantic length bounds of `DeliveryAddress`. -/
def DeliveryAddressC.pydanticOk (a : DeliveryAddressC) : Bool :=
  decide (1 ≤ a.street.length) && decide (a.street.length ≤ 200) &&
  decide (1 ≤ a.city.length) && decide (a.city.length ≤ 100) &&
  decide (2 ≤ a.state.length) && decide (a.state.length ≤ 50) &&
  decide (5 ≤ a.zip_code.length) && decide (a.zip_code.length ≤ 10) &&
  decide (((a.instructions.map String.length).getD 0) ≤ 500)

/-- The typed `OrderCreate` model. -/
structure OrderCreateC where
  user_id : String
  restaurant_id : ℤ
  order_items : List OrderItemC
  delivery_address : DeliveryAddressC
  notes : Option String
  subtotal : ℚ
  tax_amount : ℚ
  delivery_fee : ℚ
  tip_amount : ℚ
  discount_amount : ℚ
  total_amount : ℚ
deriving DecidableEq, Repr

/-- Embedding of the `OrderCreate.validate_order` model validator: the
submitted subtotal must match the sum of the item subtotals and the
submitted total must match `subtotal + tax + delivery_fee + tip -
discount`, each within an absolute tolerance of 0.01. -/
def validate_order (o : OrderCreateC) : Bool :=
  decide (|o.subtotal - (o.order_items.map (fun it => it.subtotal)).sum| ≤ 1 / 100) &&
  decide
    (|o.total_amount -
      (o.subtotal + o.tax_amount + o.delivery_fee + o.tip_amount - o.discount_amount)| ≤ 1 / 100)

/-- Full pydantic acceptance of an `OrderCreate` payload: field
constraints, nonempty item list, per-item validation, address validation,
and the model validator. -/
def orderCreate_pydanticOk (o : OrderCreateC) : Bool :=
  (!o.order_items.isEmpty) && o.order_items.all OrderItemC.pydanticOk &&
  o.delivery_address.pydanticOk &&
  decide (0 < o.subtotal) && decide (0 ≤ o.tax_amount) && decide (0 ≤ o.delivery_fee) &&
  decide (0 ≤ o.tip_amount) && decide (0 ≤ o.discount_amount) && decide (0 < o.total_amount) &&
  decide (((o.notes.map String.length).getD 0) ≤ 1000) &&
  validate_order o

/-- A persisted order row as written by `place_order`.  Estimated times
are in minutes from `now` (30 and 60 in the source). -/
structure InsertedOrder where
  order_id : String
  user_id : String
  restaurant_id : ℤ
  order_items : List OrderItemC
  delivery_address : DeliveryAddressC
  latitude : Option ℚ
  longitude : Option ℚ
  notes : Option String
  subtotal : ℚ
  tax_amount : ℚ
  delivery_fee : ℚ
  tip_amount : ℚ
  discount_amount : ℚ
  total_amount : ℚ
  status : OrderStatus
  estimated_pickup_time : ℕ
  estimated_delivery_time : ℕ
  created_at : ℕ
  updated_at : ℕ
deriving DecidableEq, Repr

/-- Embedding of POST `/orders/` (`place_order`).  FastAPI runs the
pydantic validation before the handler and answers 422 without invoking
it, so an invalid payload leaves the orders table untouched; a valid one
geocodes the address (`geocodeRes`, possibly absent — creation still
proceeds) and inserts a `pending` row. -/
def place_order (tbl : List InsertedOrder) (o : OrderCreateC) (order_id : String)
    (geocodeRes : Option (ℚ × ℚ)) (now : ℕ) : List InsertedOrder × Except HErr InsertedOrder :=
  if !orderCreate_pydanticOk o then
    (tbl, .error ⟨422, "Unprocessable Entity"⟩)
  else
    let row : InsertedOrder :=
      { order_id := order_id, user_id := o.user_id, restaurant_id := o.restaurant_id,
        order_items := o.order_items, delivery_address := o.delivery_address,
        latitude := geocodeRes.map Prod.fst, longitude := geocodeRes.map Prod.snd,
        notes := o.notes, subtotal := o.subtotal, tax_amount := o.tax_amount,
        delivery_fee := o.delivery_fee, tip_amount := o.tip_amount,
        discount_amount := o.discount_amount, total_amount := o.total_amount,
        status := OrderStatus.pending,
        estimated_pickup_time := now + 30, estimated_delivery_time := now + 60,
        created_at := now, updated_at := now }
    (tbl ++ [row], .ok row)

/-! ## Batch distance computation (`delivery_routes.py`) -/

/-- A resolvable destination of the batch matrix computation: a restaurant
id together with its resolved coordinates (the source filters out
unresolved entries before chunking). -/
structure Dest where
  restaurant_id : ℤ
  lat : ℚ
  lng : ℚ
deriving DecidableEq, Repr

/-- Embedding of the chunking comprehension
`[dests[i:i + K] for i in range(0, len(dests), K)] if dests else []`.
The source never runs it with `K = 0` (the configured maximum is a
positive provider limit); that case is given a harmless value. -/
def chunksOf (k : ℕ) (l : List α) : List (List α) :=
  match l with
  | [] => []
  | a :: rest =>
    if hk : k = 0 then [a :: rest]
    else (a :: rest).take k :: chunksOf k ((a :: rest).drop k)
termination_by l.length
decreasing_by
  simp only [List.length_drop]
  exact Nat.sub_lt (Nat.succ_pos _) (Nat.pos_of_ne_zero hk)

/-- The `destinations` parameter of a matrix request:
`";".join(str(i) for i in range(1, len(coordinates)))` where the
coordinate list is the source followed by the chunk. -/
def destinations_idx (chunk : List Dest) : String :=
  String.intercalate ";" ((List.range' 1 chunk.length).map toString)

/-- The coordinate list of a matrix request: the source position followed
by each destination as a (longitude, latitude) pair. -/
def matrix_request_coordinates (src : ℚ × ℚ) (chunk : List Dest) : List (ℚ × ℚ) :=
  src :: chunk.map (fun c => (c.lng, c.lat))

/-- The query parameters `_fetch_matrix_for_chunk` sends for a chunk; the
same four keys are built for every chunk, whatever its size. -/
def matrix_request_params (chunk : List Dest) : List (String × String) :=
  [("access_token", "MAPBOX_TOKEN"),
   ("sources", "0"),
   ("destinations", destinations_idx chunk),
   ("annotations", "distance,duration")]

/-- A provider matrix response: optional distance and duration matrices
(row-major, one row per requested source). -/
structure MatrixResp where
  distances : Option (List (List (Option ℚ)))
  durations : Option (List (List (Option ℚ)))
deriving DecidableEq, Repr

/-- First row of an optional matrix, or a row of `None` entries of the
chunk length when the matrix is missing or empty. -/
def row_from (m : Option (List (List (Option ℚ)))) (n : ℕ) : List (Option ℚ) :=
  match m with
  | some (r :: _) => r
  | _ => List.replicate n Option.none

/-- Embedding of the merge loop of `fetch_ready_orders`: chunk results are
zipped back with their chunks in order, and each destination contributes
its (possibly `None`) distance and duration under its restaurant id.  The
restaurant ids are pairwise distinct by construction in the source (they
come from a deduplicated list), so the assignment-ordered association
lists built here coincide with the dict they embed. -/
def merge_matrix_results : List (List Dest) → List MatrixResp →
    List (ℤ × Option ℚ) × List (ℤ × Option ℚ)
  | [], _ => ([], [])
  | _, [] => ([], [])
  | chunk :: cs, resp :: rs =>
    let dr := row_from resp.distances chunk.length
    let ur := row_from resp.durations chunk.length
    let trips := chunk.zip (dr.zip ur)
    let rest := merge_matrix_results cs rs
    (trips.map (fun t => (t.1.restaurant_id, t.2.1)) ++ rest.1,
     trips.map (fun t => (t.1.restaurant_id, t.2.2)) ++ rest.2)

/-- Number of concurrent matrix requests issued for a destination list:
one task per chunk. -/
def matrix_task_count (dests : List Dest) (k : ℕ) : ℕ :=
  (chunksOf k dests).length

/-- Whether an endpoint outcome is a success (an HTTP 2xx response). -/
def exceptOk : Except HErr Store → Bool
  | .ok _ => true
  | .error _ => false

/-! ## Customer location chain (`get_navigation_route`) -/

/-- The `delivery_address` field of an order row as the navigation route
reads it: absent (defaulted to the empty dict), a string, or a dict. -/
inductive AddrVal where
  | absent : AddrVal
  | strAddr : String → AddrVal
  | dictAddr : List (String × PyVal) → AddrVal
deriving DecidableEq, Repr

/-- Python truthiness of a delivery-address value. -/
def AddrVal.truthy : AddrVal → Bool
  | .absent => false
  | .strAddr s => s != ""
  | .dictAddr es => !es.isEmpty

/-- Embedding of the guarded coordinate parse used for the stored order
coordinates and for the profile row: both raw values must be non-`None`
and not the empty string, then both must parse as floats; any failure
leaves the pair unresolved. -/
def parse_coord_pair (latv lngv : PyVal) : Option (ℚ × ℚ) :=
  if latv ≠ PyVal.none ∧ lngv ≠ PyVal.none ∧ latv ≠ PyVal.str "" ∧ lngv ≠ PyVal.str "" then
    match safe_float latv Option.none, safe_float lngv Option.none with
    | some a, some b => some (a, b)
    | _, _ => Option.none
  else Option.none

/-- Embedding of the customer-coordinate resolution chain of
`get_navigation_route`: stored order coordinates first; if unresolved and
the delivery address is truthy, the geocoding result (`geocodeRes`, absent
when the provider failed or returned nothing); the saved profile
coordinates are queried only when the address is falsy and the order has a
truthy user id.  The boolean output records whether the users table was
consulted. -/
def resolve_customer_coords (storedLat storedLng : PyVal) (addr : AddrVal)
    (geocodeRes : Option (ℚ × ℚ)) (userId : Option String)
    (profileRow : Option (PyVal × PyVal)) : Option (ℚ × ℚ) × Bool :=
  let c0 := parse_coord_pair storedLat storedLng
  let c1 :=
    match c0 with
    | some p => some p
    | Option.none => if addr.truthy then geocodeRes else Option.none
  match c1 with
  | some p => (some p, false)
  | Option.none =>
    if !addr.truthy then
      match userId with
      | Option.none => (Option.none, false)
      | some uid =>
        if uid = "" then (Option.none, false)
        else
          match profileRow with
          | Option.none => (Option.none, true)
          | some pr => (parse_coord_pair pr.1 pr.2, true)
    else (Option.none, false)

/-- The per-item contribution as claim C8 words it (a refinement-check
definition written from the spec, to be compared with
`compute_item_subtotal`): the stored subtotal when that field is present
and numeric, otherwise `price × quantity`, otherwise 0 for an item that
cannot be parsed. -/
def item_contrib_per_claim (it : ItemVal) : ℚ :=
  match it with
  | .dict es =>
    match (List.lookup "subtotal" es).bind (fun v => safe_float v Option.none) with
    | some q => q
    | Option.none =>
      match (List.lookup "price" es).bind (fun v => safe_float v Option.none),
            (List.lookup "quantity" es).bind (fun v => safe_float v Option.none) with
      | some p, some q => p * q
      | _, _ => 0
  | .obj _ => 0

/-- The per-item contribution as the code actually computes it, written
out spec-style: an empty or non-dict item contributes 0; a dict holding a
`subtotal` key contributes that value parsed as a number with 0 for an
absent or unparseable value (never falling through to price × quantity);
only a dict without the key contributes price × quantity, where an
absent, unparseable or zero price counts as 0 and an absent, unparseable
or zero quantity counts as 1. -/
def item_contrib_amended (it : ItemVal) : ℚ :=
  match it with
  | .obj _ => 0
  | .dict [] => 0
  | .dict es =>
    match List.lookup "subtotal" es with
    | some v => (safe_float v Option.none).getD 0
    | Option.none =>
      let p := ((List.lookup "price" es).bind (fun v => safe_float v Option.none)).getD 0
      let q :=
        match (List.lookup "quantity" es).bind (fun v => safe_float v Option.none) with
        | some q0 => if q0 = 0 then 1 else q0
        | Option.none => 1
      p * q

/-! ## Helper lemmas -/

theorem safe_float_some (v : PyVal) (d : ℚ) :
    safe_float v (some d) = some ((safe_float v Option.none).getD d) := by
  cases v with
  | str s =>
    simp only [safe_float]
    cases parseDecimal s <;> simp
  | _ => simp [safe_float]

theorem lookup_overwrite (l : List (String × OrderRow)) (id : String) (r : OrderRow)
    (h : (List.lookup id l).isSome) :
    List.lookup id (l.map (fun p => if p.1 = id then (id, r) else p)) = some r := by
  induction l with
  | nil => simp at h
  | cons p rest ih =>
    obtain ⟨a, b⟩ := p
    simp only [List.map_cons]
    by_cases hp : a = id
    · subst hp
      rw [if_pos (rfl : (a, b).1 = a)]
      simp [List.lookup]
    · have h1 : (id == a) = false := by
        simp only [beq_eq_false_iff_ne, ne_eq]
        exact fun he => hp he.symm
      have h2 : ¬ ((a, b).1 = id) := hp
      rw [if_neg h2]
      simp only [List.lookup, h1] at h ⊢
      exact ih h

theorem fetch_put_self (db : Store) (id : String) (r : OrderRow)
    (h : (Store.fetch db id).isSome) : Store.fetch (Store.put db id r) id = some r :=
  lookup_overwrite db id r h

/-! ## Claim C1 -/

/-- Claim C1, as stated, is false on the code: for an order in
`picked_up`, the generic status-update operation alone succeeds in
reaching `delivered` (and stamps the actual delivery time). -/
theorem C1_cex :
    update_order_status
      [("o1", (⟨OrderStatus.picked_up, some (CodeVal.str "042913"), false,
               some 3, Option.none, some "d7", 3⟩ : OrderRow))]
      "o1" OrderStatus.delivered 7 123456 =
    .ok [("o1", (⟨OrderStatus.delivered, some (CodeVal.str "042913"), false,
                 some 3, some 7, some "d7", 7⟩ : OrderRow))] := by
  rfl

/-- Claim C1 as amended: the generic status-update operation reaches
`delivered` exactly when the current status is `picked_up` or `en_route`
(it is not reserved to the verification operation), and the delivery-code
verification operation likewise delivers only from `picked_up` or
`en_route`. -/
theorem C1_delivered_only_from_transit (db : Store) (id : String) (now fresh : ℕ)
    (row : OrderRow) (hrow : Store.fetch db id = some row) :
    (exceptOk (update_order_status db id OrderStatus.delivered now fresh) = true ↔
      (row.status = OrderStatus.picked_up ∨ row.status = OrderStatus.en_route)) ∧
    (∀ c, exceptOk (verify_delivery_code db id c now) = true →
      (row.status = OrderStatus.picked_up ∨ row.status = OrderStatus.en_route)) := by
  constructor
  · cases hst : row.status <;>
      simp [update_order_status, hrow, hst, exceptOk]
  · intro c h
    unfold verify_delivery_code at h
    split at h
    · simp [exceptOk] at h
    · split at h
      · rename_i heq
        rw [hrow] at heq
        exact absurd heq (by simp)
      · rename_i r heq
        rw [hrow] at heq
        injection heq with heq2
        subst heq2
        split at h
        · simp [exceptOk] at h
        · split at h
          · simp [exceptOk] at h
          · split at h
            · simp [exceptOk] at h
            · rename_i hguard
              exact not_not.mp hguard

/-- Witness for C1: instantiation at a concrete store, for an order in
`en_route`; the generic update to `delivered` succeeds. -/
theorem C1_delivered_only_from_transit_witness :
    exceptOk (update_order_status
      [("o2", (⟨OrderStatus.en_route, some (CodeVal.str "1"), false,
               some 1, Option.none, Option.none, 1⟩ : OrderRow))]
      "o2" OrderStatus.delivered 9 555555) = true := by
  have h := C1_delivered_only_from_transit
    [("o2", (⟨OrderStatus.en_route, some (CodeVal.str "1"), false,
             some 1, Option.none, Option.none, 1⟩ : OrderRow))]
    "o2" 9 555555
    (⟨OrderStatus.en_route, some (CodeVal.str "1"), false,
      some 1, Option.none, Option.none, 1⟩ : OrderRow) (by decide)
  exact h.1.mpr (Or.inr (by decide))

/-! ## Claim C2 -/

/-- Claim C2, as stated, is false on the code: the pair (current state
`delivered`, requested status `pending`) lies outside the legal set of
§4.1, yet the generic status-update operation accepts it and rewrites a
terminal order back to `pending`. -/
theorem C2_cex :
    update_order_status
      [("o1", (⟨OrderStatus.delivered, Option.none, false, Option.none,
               some 5, Option.none, 5⟩ : OrderRow))]
      "o1" OrderStatus.pending 9 111111 =
    .ok [("o1", (⟨OrderStatus.pending, Option.none, false, Option.none,
                 some 5, Option.none, 9⟩ : OrderRow))] := by
  rfl

/-- Claim C2 as amended: the generic status-update operation guards only
the two targets `picked_up` (allowed from `assigned`/`ready`/`confirmed`)
and `delivered` (allowed from `picked_up`/`en_route`), each rejection
being a 400 whose message names the attempted target and the current
state; every other requested status is accepted from any current state
once the order exists.  The separate cancel endpoint rejects orders
already `delivered` or `cancelled` and cancels the rest. -/
theorem C2_transition_characterization (db : Store) (id : String) (tgt : OrderStatus)
    (now fresh : ℕ) (row : OrderRow) (hrow : Store.fetch db id = some row) :
    ((tgt = OrderStatus.picked_up ∧
        ¬ (row.status = OrderStatus.assigned ∨ row.status = OrderStatus.ready ∨
           row.status = OrderStatus.confirmed)) →
      update_order_status db id tgt now fresh =
        .error ⟨400, "Invalid transition: cannot mark as picked_up from " ++ statusStr row.status⟩) ∧
    ((tgt = OrderStatus.delivered ∧
        ¬ (row.status = OrderStatus.picked_up ∨ row.status = OrderStatus.en_route)) →
      update_order_status db id tgt now fresh =
        .error ⟨400, "Invalid transition: cannot mark as delivered from " ++ statusStr row.status⟩) ∧
    ((tgt = OrderStatus.picked_up →
        (row.status = OrderStatus.assigned ∨ row.status = OrderStatus.ready ∨
         row.status = OrderStatus.confirmed)) →
     (tgt = OrderStatus.delivered →
        (row.status = OrderStatus.picked_up ∨ row.status = OrderStatus.en_route)) →
      exceptOk (update_order_status db id tgt now fresh) = true) ∧
    (cancel_order db id now =
      if row.status = OrderStatus.delivered ∨ row.status = OrderStatus.cancelled then
        .error ⟨400, "Cannot cancel order that is already delivered or cancelled"⟩
      else
        .ok (Store.put db id { row with status := OrderStatus.cancelled, updated_at := now })) := by
  refine ⟨?_, ?_, ?_, ?_⟩
  · rintro ⟨h1, h2⟩
    subst h1
    cases hst : row.status <;> rw [hst] at h2 <;> simp_all [update_order_status, statusStr]
  · rintro ⟨h1, h2⟩
    subst h1
    cases hst : row.status <;> rw [hst] at h2 <;> simp_all [update_order_status, statusStr]
  · intro hpu hdel
    simp only [update_order_status, hrow]
    split
    · rename_i hc
      exact absurd (hpu hc.1) hc.2
    · split
      · rename_i hc
        exact absurd (hdel hc.1) hc.2
      · rfl
  · simp only [cancel_order, hrow]

/-- Witness for C2: for a concrete `delivered` order, a `confirmed` target
is accepted by the generic update (no guard applies), and cancellation is
rejected. -/
theorem C2_transition_characterization_witness :
    exceptOk (update_order_status
      [("o1", (⟨OrderStatus.delivered, Option.none, false, Option.none,
               some 5, Option.none, 5⟩ : OrderRow))]
      "o1" OrderStatus.confirmed 9 111111) = true ∧
    cancel_order
      [("o1", (⟨OrderStatus.delivered, Option.none, false, Option.none,
               some 5, Option.none, 5⟩ : OrderRow))]
      "o1" 9 =
      .error ⟨400, "Cannot cancel order that is already delivered or cancelled"⟩ := by
  have h := C2_transition_characterization
    [("o1", (⟨OrderStatus.delivered, Option.none, false, Option.none,
             some 5, Option.none, 5⟩ : OrderRow))]
    "o1" OrderStatus.confirmed 9 111111
    (⟨OrderStatus.delivered, Option.none, false, Option.none,
      some 5, Option.none, 5⟩ : OrderRow) (by decide)
  refine ⟨h.2.2.1 (by decide) (by decide), ?_⟩
  rw [h.2.2.2]
  rfl

/-! ## Claim C6 -/

/-- Claim C6: the full error and success behaviour of delivery
verification, with the checks in source order — 400 for a falsy submitted
code, 404 for a missing order, 400 when no stored code is set, 400 when
the stripped textual images differ, 400 when the status is neither
`picked_up` nor `en_route`, and on success a transition to `delivered`
with the used-flag set and the actual delivery time stamped. -/
theorem C6_verify_characterization (db : Store) (id : String) (c : Option CodeVal) (now : ℕ) :
    (codeTruthy c = false →
      verify_delivery_code db id c now =
        .error ⟨400, "Missing delivery_code in request body"⟩) ∧
    (codeTruthy c = true → Store.fetch db id = Option.none →
      verify_delivery_code db id c now = .error ⟨404, "Order not found"⟩) ∧
    (∀ row, codeTruthy c = true → Store.fetch db id = some row →
      codeTruthy row.delivery_code = false →
      verify_delivery_code db id c now =
        .error ⟨400, "No delivery code set for this order"⟩) ∧
    (∀ row, codeTruthy c = true → Store.fetch db id = some row →
      codeTruthy row.delivery_code = true →
      pyStrip (c.getD (CodeVal.int 0)).toStr ≠ pyStrip (row.delivery_code.getD (CodeVal.int 0)).toStr →
      verify_delivery_code db id c now = .error ⟨400, "Invalid delivery code"⟩) ∧
    (∀ row, codeTruthy c = true → Store.fetch db id = some row →
      codeTruthy row.delivery_code = true →
      pyStrip (c.getD (CodeVal.int 0)).toStr = pyStrip (row.delivery_code.getD (CodeVal.int 0)).toStr →
      ¬ (row.status = OrderStatus.picked_up ∨ row.status = OrderStatus.en_route) →
      verify_delivery_code db id c now =
        .error ⟨400, "Invalid transition: cannot mark as delivered from " ++ statusStr row.status⟩) ∧
    (∀ row, codeTruthy c = true → Store.fetch db id = some row →
      codeTruthy row.delivery_code = true →
      pyStrip (c.getD (CodeVal.int 0)).toStr = pyStrip (row.delivery_code.getD (CodeVal.int 0)).toStr →
      (row.status = OrderStatus.picked_up ∨ row.status = OrderStatus.en_route) →
      verify_delivery_code db id c now =
        .ok (Store.put db id
          { row with
              status := OrderStatus.delivered,
              delivery_code_used := true,
              actual_delivery_time := some now,
              updated_at := now })) := by
  refine ⟨?_, ?_, ?_, ?_, ?_, ?_⟩
  · intro h1
    simp [verify_delivery_code, h1]
  · intro h1 h2
    simp [verify_delivery_code, h1, h2]
  · intro row h1 h2 h3
    simp [verify_delivery_code, h1, h2, h3]
  · intro row h1 h2 h3 h4
    simp only [verify_delivery_code, h1, h2, h3, Bool.not_true, Bool.false_eq_true, if_false]
    rw [if_pos h4]
  · intro row h1 h2 h3 h4 h5
    simp only [verify_delivery_code, h1, h2, h3, Bool.not_true, Bool.false_eq_true, if_false]
    rw [if_neg (by simpa using h4), if_pos h5]
  · intro row h1 h2 h3 h4 h5
    simp only [verify_delivery_code, h1, h2, h3, Bool.not_true, Bool.false_eq_true, if_false]
    rw [if_neg (by simpa using h4), if_neg (not_not_intro h5)]

/-- Witness for C6: an order in `picked_up` whose code was stored as the
number 42913 is verified by the padded submitted string " 42913 " (the
comparison strips whitespace and goes through the textual image on both
sides), transitioning it to `delivered`. -/
theorem C6_verify_characterization_witness :
    verify_delivery_code
      [("o6", (⟨OrderStatus.picked_up, some (CodeVal.int 42913), false,
               some 2, Option.none, some "d1", 2⟩ : OrderRow))]
      "o6" (some (CodeVal.str " 42913 ")) 9 =
    .ok [("o6", (⟨OrderStatus.delivered, some (CodeVal.int 42913), true,
                 some 2, some 9, some "d1", 9⟩ : OrderRow))] := by
  have h := (C6_verify_characterization
    [("o6", (⟨OrderStatus.picked_up, some (CodeVal.int 42913), false,
             some 2, Option.none, some "d1", 2⟩ : OrderRow))]
    "o6" (some (CodeVal.str " 42913 ")) 9).2.2.2.2.2
    (⟨OrderStatus.picked_up, some (CodeVal.int 42913), false,
      some 2, Option.none, some "d1", 2⟩ : OrderRow)
    (by decide) (by decide) (by decide) (by decide) (by decide)
  rw [h]
  rfl

/-! ## Claim C7 -/

/-- Claim C7: a pickup-directed update preserves an already-stored truthy
delivery code (and its used-flag) untouched, and generates a fresh
6-digit code with a cleared used-flag only when no code is stored; the
fresh code drawn from [100000, 999999] always has exactly six decimal
digits. -/
theorem C7_code_set_once (db : Store) (id : String) (now fresh : ℕ) (row : OrderRow)
    (hrow : Store.fetch db id = some row)
    (hallowed : row.status = OrderStatus.assigned ∨ row.status = OrderStatus.ready ∨
                row.status = OrderStatus.confirmed) :
    (codeTruthy row.delivery_code = true →
      update_order_status db id OrderStatus.picked_up now fresh =
        .ok (Store.put db id
          { row with
              status := OrderStatus.picked_up,
              updated_at := now,
              actual_pickup_time := some now })) ∧
    (codeTruthy row.delivery_code = false →
      update_order_status db id OrderStatus.picked_up now fresh =
        .ok (Store.put db id
          { row with
              status := OrderStatus.picked_up,
              updated_at := now,
              actual_pickup_time := some now,
              delivery_code := some (CodeVal.str (toString fresh)),
              delivery_code_used := false })) ∧
    (100000 ≤ fresh → fresh ≤ 999999 → (Nat.digits 10 fresh).length = 6) := by
  refine ⟨?_, ?_, ?_⟩
  · intro hcode
    rcases hallowed with h | h | h <;> simp_all [update_order_status]
  · intro hcode
    rcases hallowed with h | h | h <;> simp_all [update_order_status]
  · intro hlo hhi
    rw [Nat.digits_len 10 fresh (by norm_num) (by omega)]
    have hlog : Nat.log 10 fresh = 5 :=
      Nat.log_eq_of_pow_le_of_lt_pow (by norm_num; omega) (by norm_num; omega)
    rw [hlog]

/-- Witness for C7: a second pickup-directed update against an order that
already carries code "654321" leaves that code and its used-flag in
place, ignoring the fresh draw 111222. -/
theorem C7_code_set_once_witness :
    update_order_status
      [("o7", (⟨OrderStatus.confirmed, some (CodeVal.str "654321"), false,
               Option.none, Option.none, Option.none, 1⟩ : OrderRow))]
      "o7" OrderStatus.picked_up 9 111222 =
    .ok [("o7", (⟨OrderStatus.picked_up, some (CodeVal.str "654321"), false,
                 some 9, Option.none, Option.none, 9⟩ : OrderRow))] := by
  have h := (C7_code_set_once
    [("o7", (⟨OrderStatus.confirmed, some (CodeVal.str "654321"), false,
             Option.none, Option.none, Option.none, 1⟩ : OrderRow))]
    "o7" 9 111222
    (⟨OrderStatus.confirmed, some (CodeVal.str "654321"), false,
      Option.none, Option.none, Option.none, 1⟩ : OrderRow)
    (by decide) (by decide)).1 (by decide)
  rw [h]
  rfl

/-! ## Claim C10 -/

/-- Claim C10: delivery verification never inspects the used-flag — for an
order in `picked_up` or `en_route` whose stored code matches the stripped
submitted code, verification succeeds even when `delivery_code_used` is
already true, rewriting the order to `delivered`. -/
theorem C10_verify_ignores_used_flag (db : Store) (id : String) (c : Option CodeVal)
    (now : ℕ) (row : OrderRow) (hrow : Store.fetch db id = some row)
    (hused : row.delivery_code_used = true)
    (hct : codeTruthy c = true) (hstored : codeTruthy row.delivery_code = true)
    (heq : pyStrip (c.getD (CodeVal.int 0)).toStr = pyStrip (row.delivery_code.getD (CodeVal.int 0)).toStr)
    (hst : row.status = OrderStatus.picked_up ∨ row.status = OrderStatus.en_route) :
    verify_delivery_code db id c now =
      .ok (Store.put db id
        { row with
            status := OrderStatus.delivered,
            delivery_code_used := true,
            actual_delivery_time := some now,
            updated_at := now }) := by
  simp only [verify_delivery_code, hct, hrow, hstored, Bool.not_true, Bool.false_eq_true, if_false]
  rw [if_neg (by simpa using heq), if_neg (not_not_intro hst)]

/-- Witness for C10: an order whose code was already marked used is
verified again from `en_route` with the same code. -/
theorem C10_verify_ignores_used_flag_witness :
    verify_delivery_code
      [("oX", (⟨OrderStatus.en_route, some (CodeVal.str "042913"), true,
               some 2, some 3, some "d1", 3⟩ : OrderRow))]
      "oX" (some (CodeVal.str " 042913 ")) 11 =
    .ok [("oX", (⟨OrderStatus.delivered, some (CodeVal.str "042913"), true,
                 some 2, some 11, some "d1", 11⟩ : OrderRow))] := by
  have h := C10_verify_ignores_used_flag
    [("oX", (⟨OrderStatus.en_route, some (CodeVal.str "042913"), true,
             some 2, some 3, some "d1", 3⟩ : OrderRow))]
    "oX" (some (CodeVal.str " 042913 ")) 11
    (⟨OrderStatus.en_route, some (CodeVal.str "042913"), true,
      some 2, some 3, some "d1", 3⟩ : OrderRow)
    (by decide) (by decide) (by decide) (by decide) (by decide) (by decide)
  rw [h]
  rfl

/-! ## Helper lemmas for chunking and item contributions -/

theorem pyOr_some_zero (x : ℚ) : pyOr (some x) 0 = x := by
  by_cases h : x = 0 <;> simp [pyOr, h]

theorem chunksOf_flatten (k : ℕ) (l : List α) : (chunksOf k l).flatten = l := by
  have H : ∀ (n : ℕ) (l : List α), l.length ≤ n → (chunksOf k l).flatten = l := by
    intro n
    induction n with
    | zero =>
      intro l hl
      have hnil : l = [] := List.eq_nil_of_length_eq_zero (Nat.le_zero.mp hl)
      subst hnil
      simp [chunksOf]
    | succ n ih =>
      intro l hl
      match l with
      | [] => simp [chunksOf]
      | a :: rest =>
        rw [chunksOf]
        by_cases hk : k = 0
        · rw [dif_pos hk]
          simp
        · rw [dif_neg hk]
          have hlen : ((a :: rest).drop k).length ≤ n := by
            simp only [List.length_drop, List.length_cons]
            simp only [List.length_cons] at hl
            omega
          rw [List.flatten_cons, ih _ hlen]
          exact List.take_append_drop k (a :: rest)
  exact H l.length l le_rfl

theorem chunksOf_length (k : ℕ) (hk : 0 < k) (l : List α) :
    (chunksOf k l).length = (l.length + k - 1) / k := by
  have H : ∀ (n : ℕ) (l : List α), l.length ≤ n →
      (chunksOf k l).length = (l.length + k - 1) / k := by
    intro n
    induction n with
    | zero =>
      intro l hl
      have hnil : l = [] := List.eq_nil_of_length_eq_zero (Nat.le_zero.mp hl)
      subst hnil
      have hz : (List.length ([] : List α) + k - 1) / k = 0 := Nat.div_eq_of_lt (by simp; omega)
      rw [hz]
      simp [chunksOf]
    | succ n ih =>
      intro l hl
      match l with
      | [] =>
        have hz : (List.length ([] : List α) + k - 1) / k = 0 := Nat.div_eq_of_lt (by simp; omega)
        rw [hz]
        simp [chunksOf]
      | a :: rest =>
        rw [chunksOf, dif_neg hk.ne']
        have hlen : ((a :: rest).drop k).length ≤ n := by
          simp only [List.length_drop, List.length_cons]
          simp only [List.length_cons] at hl
          omega
        rw [List.length_cons, ih _ hlen]
        simp only [List.length_drop, List.length_cons]
        by_cases hmk : k ≤ rest.length + 1
        · have h1 : rest.length + 1 - k + k - 1 = rest.length := by omega
          have h2 : rest.length + 1 + k - 1 = rest.length + k := by omega
          rw [h1, h2, Nat.add_div_right _ hk]
        · have h1 : rest.length + 1 - k = 0 := by omega
          rw [h1]
          rw [Nat.div_eq_of_lt (by omega)]
          have h2 : (rest.length + 1 + k - 1) / k = 1 :=
            Nat.div_eq_of_lt_le (by omega) (by omega)
          omega
  exact H l.length l le_rfl

theorem zip_maps_fst (c : List Dest) (f g : Dest → Option ℚ) :
    (c.zip ((c.map f).zip (c.map g))).map (fun t => (t.1.restaurant_id, t.2.1)) =
      c.map (fun d => (d.restaurant_id, f d)) := by
  induction c with
  | nil => rfl
  | cons d rest ih => simp only [List.map_cons, List.zip_cons_cons, ih]

theorem zip_maps_snd (c : List Dest) (f g : Dest → Option ℚ) :
    (c.zip ((c.map f).zip (c.map g))).map (fun t => (t.1.restaurant_id, t.2.2)) =
      c.map (fun d => (d.restaurant_id, g d)) := by
  induction c with
  | nil => rfl
  | cons d rest ih => simp only [List.map_cons, List.zip_cons_cons, ih]

theorem merge_exact (cs : List (List Dest)) (dist dur : Dest → Option ℚ) :
    merge_matrix_results cs
        (cs.map (fun c => (⟨some [c.map dist], some [c.map dur]⟩ : MatrixResp))) =
      ((cs.flatten).map (fun d => (d.restaurant_id, dist d)),
       (cs.flatten).map (fun d => (d.restaurant_id, dur d))) := by
  induction cs with
  | nil => rfl
  | cons c cs ih =>
    simp only [List.map_cons, merge_matrix_results, List.flatten_cons, List.map_append]
    rw [ih]
    simp only [row_from]
    rw [zip_maps_fst, zip_maps_snd]

theorem contrib_eq (it : ItemVal) : compute_item_subtotal it = item_contrib_amended it := by
  match it with
  | .obj t => cases t <;> simp [compute_item_subtotal, item_contrib_amended, ItemVal.truthy]
  | .dict [] => rfl
  | .dict ((k, v) :: es) =>
    simp only [compute_item_subtotal, item_contrib_amended, ItemVal.truthy, List.isEmpty_cons,
      Bool.not_false, Bool.not_true, Bool.false_eq_true, if_true, if_false]
    cases hsub : List.lookup "subtotal" ((k, v) :: es) with
    | some w =>
      simp only [hsub, Option.isSome_some, if_true, Option.getD_some, Option.some_bind]
      rw [safe_float_some, pyOr_some_zero]
    | none =>
      simp only [hsub, Option.isSome_none, Bool.false_eq_true, if_false]
      cases hp : List.lookup "price" ((k, v) :: es) with
      | none =>
        simp only [hp, Option.getD_none, Option.none_bind]
        cases hq : List.lookup "quantity" ((k, v) :: es) with
        | none => simp [safe_float, pyOr]
        | some qv =>
          simp only [hq, Option.getD_some, Option.some_bind]
          rw [safe_float_some]
          cases hqv : safe_float qv Option.none with
          | none => simp [safe_float, pyOr]
          | some q0 =>
            by_cases hq0 : q0 = 0 <;> simp [safe_float, pyOr, hq0]
      | some pv =>
        simp only [hp, Option.getD_some, Option.some_bind]
        rw [safe_float_some, pyOr_some_zero]
        cases hq : List.lookup "quantity" ((k, v) :: es) with
        | none => simp [safe_float, pyOr]
        | some qv =>
          simp only [hq, Option.getD_some, Option.some_bind]
          rw [safe_float_some]
          cases hqv : safe_float qv Option.none with
          | none => simp [pyOr]
          | some q0 =>
            by_cases hq0 : q0 = 0 <;> simp [pyOr, hq0]

/-! ## Claim C3 -/

/-- The record and the total-update step never touch the subtotal field;
used to evaluate the sanitizer at a concrete row without deciding any
rational comparison. -/
theorem compute_and_update_total_subtotal (o : OrderRec) :
    (compute_and_update_total o).1.subtotal = o.subtotal := by
  unfold compute_and_update_total
  rcases h : recompute_total o with _ | _ | t <;> simp [h]

/-- The sanitizer returns the record produced by the two update steps,
whatever the counter outcome. -/
theorem sanitize_order_record_fst (o : OrderRec) (c : SanCounters) :
    (sanitize_order_record o c).1 =
      (compute_and_update_total (compute_and_update_subtotal o).1).1 := by
  unfold sanitize_order_record
  dsimp only
  split <;> rfl

/-- Claim C3, as stated, is false on the code: the admin listing returns
stored rows untouched even when the financial sanitizer would correct
them.  The concrete row stores the non-numeric subtotal "bad" against a
single item of subtotal 10; the sanitizer overwrites the field with a
recomputed number, yet the listing returns the row unchanged. -/
theorem C3_cex :
    list_orders (some [(⟨[ItemVal.dict [("subtotal", PyVal.num 10)]],
        PyVal.str "bad", PyVal.num 0, PyVal.num 0, PyVal.num 0, PyVal.num 0,
        PyVal.num 99⟩ : OrderRec)]) =
      [(⟨[ItemVal.dict [("subtotal", PyVal.num 10)]],
        PyVal.str "bad", PyVal.num 0, PyVal.num 0, PyVal.num 0, PyVal.num 0,
        PyVal.num 99⟩ : OrderRec)] ∧
    (sanitize_order_record
        (⟨[ItemVal.dict [("subtotal", PyVal.num 10)]],
          PyVal.str "bad", PyVal.num 0, PyVal.num 0, PyVal.num 0, PyVal.num 0,
          PyVal.num 99⟩ : OrderRec) ⟨0, 0, 0⟩).1 ≠
      (⟨[ItemVal.dict [("subtotal", PyVal.num 10)]],
        PyVal.str "bad", PyVal.num 0, PyVal.num 0, PyVal.num 0, PyVal.num 0,
        PyVal.num 99⟩ : OrderRec) := by
  refine ⟨rfl, fun hcon => ?_⟩
  have hfield := congrArg OrderRec.subtotal hcon
  rw [sanitize_order_record_fst, compute_and_update_total_subtotal] at hfield
  have hsub : (compute_and_update_subtotal
      (⟨[ItemVal.dict [("subtotal", PyVal.num 10)]],
        PyVal.str "bad", PyVal.num 0, PyVal.num 0, PyVal.num 0, PyVal.num 0,
        PyVal.num 99⟩ : OrderRec)).1.subtotal =
      PyVal.num (round2 (compute_subtotal
        [ItemVal.dict [("subtotal", PyVal.num 10)]])) := rfl
  rw [hsub] at hfield
  exact PyVal.noConfusion hfield

/-- Claim C3 as amended: no read path invokes the financial sanitizer.
The admin listing returns the stored rows exactly as fetched (and touches
no counters), and the single-order fetch applies its own normalization —
it unconditionally replaces the stored subtotal with the rounded sum of
the coerced item subtotals (no 0.01 tolerance, no counters) and leaves
the stored total untouched. -/
theorem C3_read_paths_skip_sanitizer (rows : List OrderRec) (o : OrderRec) :
    list_orders (some rows) = rows ∧
    list_orders Option.none = [] ∧
    (get_order_financials o).total_amount = o.total_amount ∧
    (get_order_financials o).subtotal =
      PyVal.num (round2 (itemsSubtotalSum (o.order_items.map normalize_item))) :=
  ⟨rfl, rfl, rfl, rfl⟩

/-! ## Claim C4 -/

/-- Claim C4, as stated, is false on the code: a chunk of size 1 is sent
with exactly the same request shape as a chunk of size 2 — the same four
parameter keys, including the multi-destination `destinations` parameter
(here the index string "1"); no single-destination special case exists. -/
theorem C4_cex :
    (matrix_request_params [(⟨1, 10, 20⟩ : Dest)]).map Prod.fst =
      (matrix_request_params [(⟨1, 10, 20⟩ : Dest), (⟨2, 30, 40⟩ : Dest)]).map Prod.fst ∧
    matrix_request_params [(⟨1, 10, 20⟩ : Dest)] =
      [("access_token", "MAPBOX_TOKEN"), ("sources", "0"), ("destinations", "1"),
       ("annotations", "distance,duration")] := by
  exact ⟨rfl, by decide⟩

/-- Claim C4 as amended: for N resolvable destinations and maximum chunk
size K > 0, exactly `(N + K - 1) / K` (that is, ceil(N/K)) matrix
requests are issued; every chunk, size 1 included, uses the same request
shape (the four parameter keys below); and when each chunk response
carries one matrix row with the per-destination values, the merged
restaurant-id-keyed results list every destination in the original input
order regardless of the chunk boundaries. -/
theorem C4_chunking (K : ℕ) (hK : 0 < K) (dests : List Dest)
    (dist dur : Dest → Option ℚ) :
    matrix_task_count dests K = (dests.length + K - 1) / K ∧
    (∀ chunk : List Dest, (matrix_request_params chunk).map Prod.fst =
      ["access_token", "sources", "destinations", "annotations"]) ∧
    merge_matrix_results (chunksOf K dests)
        ((chunksOf K dests).map
          (fun c => (⟨some [c.map dist], some [c.map dur]⟩ : MatrixResp))) =
      (dests.map (fun d => (d.restaurant_id, dist d)),
       dests.map (fun d => (d.restaurant_id, dur d))) := by
  refine ⟨chunksOf_length K hK dests, fun chunk => rfl, ?_⟩
  rw [merge_exact, chunksOf_flatten]

/-- Witness for C4: three destinations with maximum chunk size 2 issue
two requests, and the merged distances follow the original order across
the chunk boundary. -/
theorem C4_chunking_witness :
    matrix_task_count [(⟨1, 10, 0⟩ : Dest), (⟨2, 20, 0⟩ : Dest), (⟨3, 30, 0⟩ : Dest)] 2 = 2 ∧
    merge_matrix_results
        (chunksOf 2 [(⟨1, 10, 0⟩ : Dest), (⟨2, 20, 0⟩ : Dest), (⟨3, 30, 0⟩ : Dest)])
        ((chunksOf 2 [(⟨1, 10, 0⟩ : Dest), (⟨2, 20, 0⟩ : Dest), (⟨3, 30, 0⟩ : Dest)]).map
          (fun c => (⟨some [c.map (fun d => some d.lat)],
                      some [c.map (fun _ => (Option.none : Option ℚ))]⟩ : MatrixResp))) =
      ([((1 : ℤ), some (10 : ℚ)), (2, some 20), (3, some 30)],
       [((1 : ℤ), (Option.none : Option ℚ)), (2, Option.none), (3, Option.none)]) := by
  have h := C4_chunking 2 (by decide)
    [(⟨1, 10, 0⟩ : Dest), (⟨2, 20, 0⟩ : Dest), (⟨3, 30, 0⟩ : Dest)]
    (fun d => some d.lat) (fun _ => (Option.none : Option ℚ))
  exact ⟨h.1, h.2.2⟩

/-! ## Claim C5 -/

/-- Claim C5: a creation payload whose submitted subtotal differs from the
sum of its item subtotals by more than 0.01, or whose submitted total
differs from subtotal + tax + delivery fee + tip − discount by more than
0.01, is rejected with 422 and the orders table is left untouched. -/
theorem C5_inconsistent_payload_rejected (tbl : List InsertedOrder) (o : OrderCreateC)
    (id : String) (g : Option (ℚ × ℚ)) (now : ℕ)
    (h : |o.subtotal - (o.order_items.map (fun it => it.subtotal)).sum| > 1 / 100 ∨
         |o.total_amount - (o.subtotal + o.tax_amount + o.delivery_fee + o.tip_amount -
            o.discount_amount)| > 1 / 100) :
    place_order tbl o id g now = (tbl, .error ⟨422, "Unprocessable Entity"⟩) := by
  have hval : validate_order o = false := by
    unfold validate_order
    rcases h with h | h
    · rw [decide_eq_false (not_le.mpr h), Bool.false_and]
    · rw [decide_eq_false (not_le.mpr h), Bool.and_false]
  have hok : orderCreate_pydanticOk o = false := by
    simp [orderCreate_pydanticOk, hval]
  simp [place_order, hok]

/-- Witness for C5: items summing to 25.98 submitted with subtotal 30.00
are rejected with 422 against an empty table, which stays empty. -/
theorem C5_inconsistent_payload_rejected_witness :
    place_order []
      (⟨"u1", 1, [⟨123, "Margherita Pizza", 1299 / 100, 2, 2598 / 100, Option.none⟩],
        ⟨"123 Main St", "San Francisco", "CA", "94105", Option.none⟩, Option.none,
        30, 0, 0, 0, 0, 30⟩ : OrderCreateC)
      "oid1" Option.none 0 =
    ([], .error ⟨422, "Unprocessable Entity"⟩) :=
  C5_inconsistent_payload_rejected []
    (⟨"u1", 1, [⟨123, "Margherita Pizza", 1299 / 100, 2, 2598 / 100, Option.none⟩],
      ⟨"123 Main St", "San Francisco", "CA", "94105", Option.none⟩, Option.none,
      30, 0, 0, 0, 0, 30⟩ : OrderCreateC)
    "oid1" Option.none 0
    (Or.inl (by
      norm_num [List.map_cons, List.map_nil, List.sum_cons, List.sum_nil]
      rw [abs_of_pos (by norm_num)]
      norm_num))

/-! ## Claim C8 -/

/-- Claim C8, as stated, is false on the code: for an item whose
`subtotal` field is present but non-numeric alongside price 5 and
quantity 2, the claim's reading falls through to price × quantity = 10,
while the code coerces the present field and contributes 0. -/
theorem C8_cex :
    compute_item_subtotal
        (ItemVal.dict [("subtotal", PyVal.str "abc"), ("price", PyVal.num 5),
                       ("quantity", PyVal.num 2)]) = 0 ∧
    item_contrib_per_claim
        (ItemVal.dict [("subtotal", PyVal.str "abc"), ("price", PyVal.num 5),
                       ("quantity", PyVal.num 2)]) = 10 ∧
    compute_item_subtotal
        (ItemVal.dict [("subtotal", PyVal.str "abc"), ("price", PyVal.num 5),
                       ("quantity", PyVal.num 2)]) ≠
      item_contrib_per_claim
        (ItemVal.dict [("subtotal", PyVal.str "abc"), ("price", PyVal.num 5),
                       ("quantity", PyVal.num 2)]) := by
  have h1 : compute_item_subtotal
      (ItemVal.dict [("subtotal", PyVal.str "abc"), ("price", PyVal.num 5),
                     ("quantity", PyVal.num 2)]) = 0 := rfl
  have h2 : item_contrib_per_claim
      (ItemVal.dict [("subtotal", PyVal.str "abc"), ("price", PyVal.num 5),
                     ("quantity", PyVal.num 2)]) = (5 : ℚ) * 2 := rfl
  have h3 : (5 : ℚ) * 2 = 10 := by norm_num
  refine ⟨h1, h2.trans h3, ?_⟩
  rw [h1, h2.trans h3]
  norm_num

/-- Claim C8 as amended: each item's contribution is the parsed value of
its stored `subtotal` whenever that field is present — with 0 for an
absent or unparseable value, never falling through to price × quantity —
and price × quantity only when the field is absent, where an absent,
unparseable or zero price counts as 0 and an absent, unparseable or zero
quantity counts as 1; empty or non-dict items contribute 0, no item ever
aborts the computation, and the contributions are summed. -/
theorem C8_item_contribution_characterization (it : ItemVal) (items : List ItemVal) :
    compute_item_subtotal it = item_contrib_amended it ∧
    compute_subtotal items = (items.map item_contrib_amended).sum := by
  refine ⟨contrib_eq it, ?_⟩
  unfold compute_subtotal
  congr 1
  exact List.map_congr_left (fun a _ => contrib_eq a)

/-! ## Claim C9 -/

/-- Claim C9: a truthy delivery address short-circuits the profile
fallback — with unresolvable stored coordinates and a truthy address, the
resolved coordinates are exactly the geocoding outcome (absent when
geocoding fails) and the users table is never consulted; moreover the
profile is consulted only when no truthy delivery address is present. -/
theorem C9_address_short_circuit (storedLat storedLng : PyVal) (addr : AddrVal)
    (g : Option (ℚ × ℚ)) (uid : Option String) (prof : Option (PyVal × PyVal))
    (hstored : parse_coord_pair storedLat storedLng = Option.none)
    (haddr : addr.truthy = true) :
    resolve_customer_coords storedLat storedLng addr g uid prof = (g, false) ∧
    (∀ (sl sv : PyVal) (a2 : AddrVal) (g2 : Option (ℚ × ℚ)) (u2 : Option String)
        (p2 : Option (PyVal × PyVal)),
      (resolve_customer_coords sl sv a2 g2 u2 p2).2 = true → a2.truthy = false) := by
  constructor
  · unfold resolve_customer_coords
    rw [hstored]
    cases g <;> simp [haddr]
  · intro sl sv a2 g2 u2 p2 h
    by_cases ha : a2.truthy = true
    · exfalso
      cases hc : parse_coord_pair sl sv <;> cases g2 <;>
        simp [resolve_customer_coords, hc, ha] at h
    · simpa using ha

/-- Witness for C9: an order with no stored coordinates, a present
address whose geocoding failed, and saved profile coordinates (1, 2):
resolution leaves the coordinates absent without consulting the
profile. -/
theorem C9_address_short_circuit_witness :
    resolve_customer_coords PyVal.none PyVal.none
      (AddrVal.strAddr "1 Main St, Springfield") Option.none (some "u1")
      (some (PyVal.num 1, PyVal.num 2)) = (Option.none, false) :=
  (C9_address_short_circuit PyVal.none PyVal.none
    (AddrVal.strAddr "1 Main St, Springfield") Option.none (some "u1")
    (some (PyVal.num 1, PyVal.num 2)) (by decide) (by decide)).1

end PeerCafe
